import Mathlib

/-!
Verification of the ats_breaker metered-access ledger, Stripe webhook
reconciler and run state machine, shallowly embedded from the repository
source (`src/docs/plans/2026-02-01-paywall-implementation.md` holds the
backend code; `src/supabase/migrations/001_initial_schema.sql` the run
status vocabulary).  Counters are embedded as `Int` (they are SQL
`INTEGER` columns); timestamps as `Int` instants compared with `<`.
-/

/-- Paywall configuration from `config.py` (Task 2 of the implementation
plan).  `defaultSettings` carries the documented defaults: 3 trial
requests, 50 per subscription period, 10 per add-on pack. -/
structure Settings where
  unlimited_users : List String
  trial_request_limit : Int
  subscription_request_limit : Int
  addon_request_count : Int
deriving Repr, DecidableEq

def defaultSettings : Settings :=
  { unlimited_users := []
    trial_request_limit := 3
    subscription_request_limit := 50
    addon_request_count := 10 }

/-- The subscription-related columns of the `profiles` row, from migration
`005_subscription_columns.sql`. -/
structure Profile where
  subscription_status : String
  subscription_id : Option String
  stripe_customer_id : Option String
  current_period_end : Option Int
  period_request_count : Int
  addon_credits : Int
  request_count : Int
deriving Repr, DecidableEq

/-- `AccessResult` dataclass from `services/access_control.py`, with the
same field defaults. -/
structure AccessResult where
  allowed : Bool
  remaining : Option Int := none
  unlimited : Bool := false
  is_trial : Bool := false
  reason : Option String := none
  can_subscribe : Bool := false
  can_buy_addon : Bool := false
  renewal_date : Option Int := none
deriving Repr, DecidableEq

/-- The guard of the active-subscriber branch of `check_access`:
`subscription_status == "active" and current_period_end and now <
current_period_end` (a `None` period end is falsy in the source). -/
def periodActive (p : Profile) (now : Int) : Bool :=
  p.subscription_status == "active" &&
    match p.current_period_end with
    | some t => decide (now < t)
    | none => false

/-- `check_access` from `services/access_control.py`: admin override, then
active subscriber with unexpired period, then lifetime trial, else
trial exhausted. -/
def check_access (s : Settings) (user_email : String) (p : Profile)
    (now : Int) : AccessResult :=
  if s.unlimited_users.contains user_email.toLower then
    { allowed := true, unlimited := true }
  else if periodActive p now then
    let remaining_period := s.subscription_request_limit - p.period_request_count
    let remaining_total := remaining_period + p.addon_credits
    if remaining_total > 0 then
      { allowed := true
        remaining := some remaining_total
        renewal_date := p.current_period_end }
    else
      { allowed := false
        remaining := some 0
        reason := some "quota_exhausted"
        can_buy_addon := true
        renewal_date := p.current_period_end }
  else if p.request_count < s.trial_request_limit then
    { allowed := true
      remaining := some (s.trial_request_limit - p.request_count)
      is_trial := true }
  else
    { allowed := false
      remaining := some 0
      reason := some "trial_exhausted"
      can_subscribe := true }

/-- The dict of profile fields returned by `consume_request`: at most one
field is written per call. -/
inductive ProfileUpdate where
  | nothing : ProfileUpdate
  | set_period_request_count (n : Int) : ProfileUpdate
  | set_addon_credits (n : Int) : ProfileUpdate
  | set_request_count (n : Int) : ProfileUpdate
deriving Repr, DecidableEq

/-- `consume_request` from `services/access_control.py`: admins consume
nothing; `active` subscribers use period quota first, then add-on
credits; everyone else increments the lifetime trial counter. -/
def consume_request (s : Settings) (user_email : String) (p : Profile) :
    ProfileUpdate :=
  if s.unlimited_users.contains user_email.toLower then
    ProfileUpdate.nothing
  else if p.subscription_status == "active" then
    if p.period_request_count < s.subscription_request_limit then
      ProfileUpdate.set_period_request_count (p.period_request_count + 1)
    else if p.addon_credits > 0 then
      ProfileUpdate.set_addon_credits (p.addon_credits - 1)
    else
      ProfileUpdate.nothing
  else
    ProfileUpdate.set_request_count (p.request_count + 1)

/-- `supabase.update_profile` applied to a `consume_request` result: an
unconditional write of the absolute values in the update dict. -/
def applyUpdate (p : Profile) : ProfileUpdate → Profile
  | ProfileUpdate.nothing => p
  | ProfileUpdate.set_period_request_count n => { p with period_request_count := n }
  | ProfileUpdate.set_addon_credits n => { p with addon_credits := n }
  | ProfileUpdate.set_request_count n => { p with request_count := n }

/-- One debit as the optimize endpoint performs it: compute the update
from the profile, then write it. -/
def debitStep (s : Settings) (user_email : String) (p : Profile) : Profile :=
  applyUpdate p (consume_request s user_email p)

/-- A sequence of debits applied in order. -/
def runDebits (s : Settings) (emails : List String) (p : Profile) : Profile :=
  emails.foldl (fun q e => debitStep s e q) p

/-- The Stripe events dispatched by `handle_stripe_webhook` in
`api/routes/webhooks.py`, each carrying its unique event id.  Only the
paths that reach a profile write are modelled with their data; the
guards that skip the write are kept (`sub_ok` is whether `invoice.paid`
carries a subscription id; events whose metadata lacks a user id never
reach this profile and are omitted). -/
inductive StripeEvent where
  | checkout_subscription (event_id : String) (sub_id : String)
      (cust_id : String) (period_end : Int) : StripeEvent
  | checkout_addon (event_id : String) : StripeEvent
  | invoice_paid (event_id : String) (sub_ok : Bool) (period_end : Int) : StripeEvent
  | subscription_updated (event_id : String) (stripe_status : String)
      (period_end : Int) : StripeEvent
  | subscription_deleted (event_id : String) : StripeEvent
deriving Repr, DecidableEq

/-- The status mapping of the `customer.subscription.updated` branch:
`active`/`trialing` map to `active`, `canceled` to `cancelled`, and any
other Stripe status (including retry states such as `past_due`) to
`expired`. -/
def db_status_of (stripe_status : String) : String :=
  if stripe_status == "active" || stripe_status == "trialing" then "active"
  else if stripe_status == "canceled" then "cancelled"
  else "expired"

/-- The profile write performed for each event by `handle_stripe_webhook`
(lines 624 to 719 of the implementation plan).  The event id is carried
by every event but never consulted: the handler keeps no record of
processed event ids. -/
def handle_stripe_event (s : Settings) (e : StripeEvent) (p : Profile) :
    Profile :=
  match e with
  | StripeEvent.checkout_subscription _ sub_id cust_id pe =>
      { p with subscription_status := "active"
               subscription_id := some sub_id
               stripe_customer_id := some cust_id
               current_period_end := some pe
               period_request_count := 0 }
  | StripeEvent.checkout_addon _ =>
      { p with addon_credits := p.addon_credits + s.addon_request_count }
  | StripeEvent.invoice_paid _ sub_ok pe =>
      if sub_ok then
        { p with subscription_status := "active"
                 current_period_end := some pe
                 period_request_count := 0 }
      else p
  | StripeEvent.subscription_updated _ st pe =>
      { p with subscription_status := db_status_of st
               current_period_end := some pe }
  | StripeEvent.subscription_deleted _ =>
      { p with subscription_status := "expired" }

/-- The HTTP outcome of the webhook endpoint. -/
structure WebhookResponse where
  http_status : Int
  body_status : String
deriving Repr, DecidableEq

/-- `handle_stripe_webhook` with its try/except around the profile write:
each event performs at most one `update_profile` call; when that call
raises `SupabaseError` (`db_fails`), the handler catches it, leaves the
profile untouched, and deliberately returns HTTP 200 with an error body
(source comment: return 200 to Stripe even if the DB update fails). -/
def handle_stripe_webhook (s : Settings) (db_fails : Bool) (e : StripeEvent)
    (p : Profile) : WebhookResponse × Profile :=
  if db_fails then
    ({ http_status := 200, body_status := "error" }, p)
  else
    ({ http_status := 200, body_status := "ok" }, handle_stripe_event s e p)

/-- The run status vocabulary, from the CHECK constraint on
`optimization_runs.status` in `001_initial_schema.sql`. -/
inductive RunStatus where
  | pending : RunStatus
  | parse_job : RunStatus
  | generate : RunStatus
  | validate : RunStatus
  | refine : RunStatus
  | complete : RunStatus
  | failed : RunStatus
deriving Repr, DecidableEq

/-- Modelled from the spec: the RunOrchestrator transition graph (the
orchestrator source is not under src/; only the status CHECK constraint
and the polling client are).  Edges: pending to parse_job, parse_job to
generate, generate to validate, validate to refine or complete, refine
back to generate, and failed from any non-terminal state; `complete` and
`failed` have no outgoing edges. -/
def runStep : RunStatus → RunStatus → Bool
  | RunStatus.pending, RunStatus.parse_job => true
  | RunStatus.parse_job, RunStatus.generate => true
  | RunStatus.generate, RunStatus.validate => true
  | RunStatus.validate, RunStatus.refine => true
  | RunStatus.validate, RunStatus.complete => true
  | RunStatus.refine, RunStatus.generate => true
  | RunStatus.pending, RunStatus.failed => true
  | RunStatus.parse_job, RunStatus.failed => true
  | RunStatus.generate, RunStatus.failed => true
  | RunStatus.validate, RunStatus.failed => true
  | RunStatus.refine, RunStatus.failed => true
  | _, _ => false

/-- A status sequence that advances only along `runStep` edges. -/
def validWalk : List RunStatus → Bool
  | [] => true
  | [_] => true
  | a :: b :: rest => runStep a b && validWalk (b :: rest)

/-- The run record as created by `create_optimization_run`: status
defaults to `pending`, iterations to 0. -/
structure Run where
  status : RunStatus
  iterations : Int
deriving Repr, DecidableEq

/-- Outcome of the start-run endpoint: a 402 admission denial, or a
created run together with the profile as left by the debit. -/
inductive StartResult where
  | denied (http_status : Int) : StartResult
  | started (run : Run) (newProfile : Profile) : StartResult
deriving Repr, DecidableEq

/-- `start_optimization` from `api/routes/optimize.py` (Task 9): check
access, raise 402 when denied; otherwise create the run record (status
`pending`) and immediately apply the `consume_request` updates to the
profile, before any background processing begins. -/
def start_optimization (s : Settings) (user_email : String) (p : Profile)
    (now : Int) : StartResult :=
  let access := check_access s user_email p now
  if access.allowed then
    StartResult.started { status := RunStatus.pending, iterations := 0 }
      (applyUpdate p (consume_request s user_email p))
  else
    StartResult.denied 402

/-- The concurrent-debit interleaving in which both callers of the
optimize endpoint read the profile before either write lands: each
computes `consume_request` from its (identical) snapshot and
`update_profile` then writes the absolute values in order.  A caller
"succeeds" when its computed update dict is non-empty. -/
def raceBothReadFirst (s : Settings) (user_email : String) (p : Profile) :
    Bool × Bool × Profile :=
  let u1 := consume_request s user_email p
  let u2 := consume_request s user_email p
  let p1 := applyUpdate p u1
  let p2 := applyUpdate p1 u2
  (decide (u1 ≠ ProfileUpdate.nothing), decide (u2 ≠ ProfileUpdate.nothing), p2)

/-- The quota invariant of the spec: period usage within the subscription
limit and a non-negative add-on balance. -/
def quotaInv (s : Settings) (p : Profile) : Prop :=
  p.period_request_count ≤ s.subscription_request_limit ∧ 0 ≤ p.addon_credits

instance (s : Settings) (p : Profile) : Decidable (quotaInv s p) := by
  unfold quotaInv
  infer_instance

theorem debitStep_preserves_quotaInv (s : Settings) (e : String) (p : Profile)
    (h : quotaInv s p) : quotaInv s (debitStep s e p) := by
  unfold quotaInv at h ⊢
  unfold debitStep consume_request
  split
  · exact h
  · split
    · split
      · simp only [applyUpdate]
        omega
      · split
        · simp only [applyUpdate]
          omega
        · exact h
    · simp only [applyUpdate]
      exact h

/-- Claim C7: for every account state satisfying the quota invariant and
every sequence of debits (`consume_request` applications with their
updates applied), `period_request_count` never exceeds the subscription
limit and `addon_credits` never goes negative. -/
theorem C7_quota_monotonic (s : Settings) (emails : List String) (p : Profile)
    (h : quotaInv s p) : quotaInv s (runDebits s emails p) := by
  induction emails generalizing p with
  | nil => exact h
  | cons e rest ih =>
    exact ih (debitStep s e p) (debitStep_preserves_quotaInv s e p h)

def c7profile : Profile :=
  { subscription_status := "active", subscription_id := some "sub_7"
    stripe_customer_id := some "cus_7", current_period_end := some 100
    period_request_count := 49, addon_credits := 1, request_count := 0 }

/-- Claim C7 witness: three debits from one remaining period unit plus one
add-on credit keep the invariant. -/
theorem C7_quota_monotonic_witness :
    quotaInv defaultSettings
      (runDebits defaultSettings ["a@b.c", "d@e.f", "a@b.c"] c7profile) :=
  C7_quota_monotonic defaultSettings ["a@b.c", "d@e.f", "a@b.c"] c7profile
    (by decide)

def c5profile : Profile :=
  { subscription_status := "active", subscription_id := some "sub_5"
    stripe_customer_id := some "cus_5", current_period_end := some 100
    period_request_count := 50, addon_credits := 3, request_count := 0 }

/-- Claim C5: an `active` account inside its period with the period quota
fully used (50 of 50) and 3 add-on credits is allowed with remaining 3,
and the debit decrements `addon_credits` to 2, leaving
`period_request_count` and `request_count` unchanged. -/
theorem C5_subscriber_addon_overflow (user_email : String) (p : Profile)
    (now t : Int)
    (h1 : p.subscription_status = "active")
    (h2 : p.current_period_end = some t)
    (h3 : now < t)
    (h4 : p.period_request_count = 50)
    (h5 : p.addon_credits = 3) :
    (check_access defaultSettings user_email p now).allowed = true ∧
    (check_access defaultSettings user_email p now).remaining = some 3 ∧
    consume_request defaultSettings user_email p =
      ProfileUpdate.set_addon_credits 2 ∧
    (debitStep defaultSettings user_email p).addon_credits = 2 ∧
    (debitStep defaultSettings user_email p).period_request_count =
      p.period_request_count := by
  have hpa : periodActive p now = true := by
    simp [periodActive, h1, h2, h3]
  refine ⟨?_, ?_, ?_, ?_, ?_⟩ <;>
    simp [check_access, consume_request, debitStep, applyUpdate,
      defaultSettings, hpa, h1, h4, h5]

/-- Claim C5 witness. -/
theorem C5_subscriber_addon_overflow_witness :
    (check_access defaultSettings "a@b.c" c5profile 0).allowed = true ∧
    (check_access defaultSettings "a@b.c" c5profile 0).remaining = some 3 ∧
    consume_request defaultSettings "a@b.c" c5profile =
      ProfileUpdate.set_addon_credits 2 ∧
    (debitStep defaultSettings "a@b.c" c5profile).addon_credits = 2 ∧
    (debitStep defaultSettings "a@b.c" c5profile).period_request_count =
      c5profile.period_request_count :=
  C5_subscriber_addon_overflow "a@b.c" c5profile 0 100 rfl rfl (by decide)
    rfl rfl

/-- Claim C6: an account that is not administratively unlimited, has no
currently active subscription period, and whose lifetime trial usage has
reached the trial limit is denied with reason `trial_exhausted` and
`can_subscribe = true`. -/
theorem C6_trial_exhausted_denial (s : Settings) (user_email : String)
    (p : Profile) (now : Int)
    (h1 : s.unlimited_users.contains user_email.toLower = false)
    (h2 : periodActive p now = false)
    (h3 : s.trial_request_limit ≤ p.request_count) :
    check_access s user_email p now =
      { allowed := false, remaining := some 0
        reason := some "trial_exhausted", can_subscribe := true } := by
  have h1m : user_email.toLower ∉ s.unlimited_users := by
    simpa using h1
  simp [check_access, h1m, h2, not_lt.mpr h3]

def c6profile : Profile :=
  { subscription_status := "trial", subscription_id := none
    stripe_customer_id := none, current_period_end := none
    period_request_count := 0, addon_credits := 0, request_count := 3 }

/-- Claim C6 witness: trial limit 3, trial usage 3, tier `trial`. -/
theorem C6_trial_exhausted_denial_witness :
    check_access defaultSettings "a@b.c" c6profile 0 =
      { allowed := false, remaining := some 0
        reason := some "trial_exhausted", can_subscribe := true } :=
  C6_trial_exhausted_denial defaultSettings "a@b.c" c6profile 0 (by decide)
    (by decide) (by decide)

theorem applyUpdate_request_count (p : Profile) (u : ProfileUpdate)
    (hu : ∀ n, u ≠ ProfileUpdate.set_request_count n) :
    (applyUpdate p u).request_count = p.request_count := by
  cases u with
  | nothing => rfl
  | set_period_request_count n => rfl
  | set_addon_credits n => rfl
  | set_request_count n => exact absurd rfl (hu n)

/-- Claim C10: for an `active` account, `consume_request` is independent of
`current_period_end` (it dispatches on `subscription_status` alone),
never returns a lifetime-counter update, and the applied debit leaves
`request_count` unchanged. -/
theorem C10_active_debit_ignores_period (s : Settings) (user_email : String)
    (p : Profile) (h : p.subscription_status = "active") :
    (∀ cpe, consume_request s user_email
        { p with current_period_end := cpe } =
      consume_request s user_email p) ∧
    (∀ n, consume_request s user_email p ≠
      ProfileUpdate.set_request_count n) ∧
    (debitStep s user_email p).request_count = p.request_count := by
  have key : ∀ n, consume_request s user_email p ≠
      ProfileUpdate.set_request_count n := by
    intro n
    simp only [consume_request, h, beq_self_eq_true, if_true]
    split
    · simp
    · split
      · simp
      · split <;> simp
  exact ⟨fun cpe => rfl, key, applyUpdate_request_count p _ key⟩

def c10profile : Profile :=
  { subscription_status := "active", subscription_id := some "sub_10"
    stripe_customer_id := some "cus_10", current_period_end := some (-5)
    period_request_count := 12, addon_credits := 0, request_count := 2 }

/-- Claim C10 witness: an `active` account whose period already ended. -/
theorem C10_active_debit_ignores_period_witness :
    consume_request defaultSettings "a@b.c"
        { c10profile with current_period_end := none } =
      consume_request defaultSettings "a@b.c" c10profile ∧
    consume_request defaultSettings "a@b.c" c10profile ≠
      ProfileUpdate.set_request_count 3 ∧
    (debitStep defaultSettings "a@b.c" c10profile).request_count =
      c10profile.request_count := by
  have h := C10_active_debit_ignores_period defaultSettings "a@b.c"
    c10profile rfl
  exact ⟨h.1 none, h.2.1 3, h.2.2⟩

theorem validWalk_cons_cons (a b : RunStatus) (t : List RunStatus)
    (h : validWalk (a :: b :: t) = true) :
    runStep a b = true ∧ validWalk (b :: t) = true := by
  simpa [validWalk, Bool.and_eq_true] using h

theorem validWalk_count_le_one (x : RunStatus)
    (habs : ∀ y, runStep x y = false) :
    ∀ l, validWalk l = true → l.count x ≤ 1 := by
  intro l
  induction l with
  | nil => intro _; simp
  | cons a rest ih =>
    intro h
    cases rest with
    | nil =>
      by_cases hax : a = x <;> simp [List.count_cons, hax]
    | cons b t =>
      have hs := validWalk_cons_cons a b t h
      by_cases hax : a = x
      · rw [hax] at hs
        rw [habs b] at hs
        exact absurd hs.1 (by simp)
      · have := ih hs.2
        simpa [List.count_cons, hax] using this

/-- Claim C9: in the modelled run-status graph (statuses from the SQL
CHECK constraint, edges from the spec), every valid walk contains
`complete` at most once and `failed` at most once, and both are
absorbing: no edge leaves them. -/
theorem C9_state_monotonic (l : List RunStatus) (h : validWalk l = true) :
    l.count RunStatus.complete ≤ 1 ∧ l.count RunStatus.failed ≤ 1 ∧
    (∀ y, runStep RunStatus.complete y = false) ∧
    (∀ y, runStep RunStatus.failed y = false) := by
  have habsC : ∀ y, runStep RunStatus.complete y = false := by
    intro y; cases y <;> rfl
  have habsF : ∀ y, runStep RunStatus.failed y = false := by
    intro y; cases y <;> rfl
  exact ⟨validWalk_count_le_one RunStatus.complete habsC l h,
    validWalk_count_le_one RunStatus.failed habsF l h, habsC, habsF⟩

def c9walk : List RunStatus :=
  [RunStatus.pending, RunStatus.parse_job, RunStatus.generate,
   RunStatus.validate, RunStatus.refine, RunStatus.generate,
   RunStatus.validate, RunStatus.complete]

/-- Claim C9 witness: a two-iteration refine loop ending in `complete`. -/
theorem C9_state_monotonic_witness :
    validWalk c9walk = true ∧
    c9walk.count RunStatus.complete ≤ 1 ∧
    c9walk.count RunStatus.failed ≤ 1 ∧
    runStep RunStatus.complete RunStatus.generate = false ∧
    runStep RunStatus.failed RunStatus.generate = false := by
  have h := C9_state_monotonic c9walk (by decide)
  exact ⟨by decide, h.1, h.2.1, h.2.2.1 RunStatus.generate,
    h.2.2.2 RunStatus.generate⟩

def c1profile : Profile :=
  { subscription_status := "trial", subscription_id := none
    stripe_customer_id := none, current_period_end := none
    period_request_count := 0, addon_credits := 0, request_count := 0 }

/-- Claim C1 counterexample: the optimize endpoint performs the quota
debit at run creation — the returned run has status `pending`, not
`complete`, yet the profile has already been debited (lifetime counter
went from 0 to 1).  No code path debits at completion, so a run that
later ends in `failed` has been debited all the same, contradicting the
claim that the debit happens only after `complete` and that failed runs
never debit. -/
theorem C1_counterexample :
    start_optimization defaultSettings "a@b.c" c1profile 0 =
      StartResult.started { status := RunStatus.pending, iterations := 0 }
        { c1profile with request_count := 1 } ∧
    { c1profile with request_count := 1 } ≠ c1profile ∧
    RunStatus.pending ≠ RunStatus.complete := by
  refine ⟨?_, by decide, by decide⟩
  rfl

/-- Claim C1 as amended: whenever admission is granted, the debit is
performed exactly once, synchronously, at run creation — the endpoint
returns a run with status `pending` together with the profile already
updated by `consume_request`; the run's later terminal status plays no
part in the debit. -/
theorem C1_debit_at_creation (s : Settings) (user_email : String)
    (p : Profile) (now : Int)
    (h : (check_access s user_email p now).allowed = true) :
    start_optimization s user_email p now =
      StartResult.started { status := RunStatus.pending, iterations := 0 }
        (debitStep s user_email p) := by
  simp [start_optimization, h, debitStep]

/-- Claim C1 amended witness. -/
theorem C1_debit_at_creation_witness :
    start_optimization defaultSettings "a@b.c" c1profile 0 =
      StartResult.started { status := RunStatus.pending, iterations := 0 }
        (debitStep defaultSettings "a@b.c" c1profile) :=
  C1_debit_at_creation defaultSettings "a@b.c" c1profile 0 (by decide)

def c2profile : Profile :=
  { subscription_status := "active", subscription_id := some "sub_2"
    stripe_customer_id := some "cus_2", current_period_end := some 100
    period_request_count := 0, addon_credits := 0, request_count := 0 }

/-- Claim C2 counterexample: the webhook handler keeps no record of
processed event ids, so applying the same add-on checkout-completed
event twice adds the pack a second time (credits 0 to 10 to 20). -/
theorem C2_counterexample :
    handle_stripe_event defaultSettings (StripeEvent.checkout_addon "evt_1")
        (handle_stripe_event defaultSettings
          (StripeEvent.checkout_addon "evt_1") c2profile) ≠
      handle_stripe_event defaultSettings
        (StripeEvent.checkout_addon "evt_1") c2profile := by
  decide

/-- Claim C2 as amended: for every event other than an add-on checkout,
applying it twice produces the same Account state as applying it once
(in particular a second identical invoice-paid renewal is a no-op); a
duplicate add-on checkout-completed event, however, adds the credits a
second time because the handler does no event-id deduplication. -/
theorem C2_idempotent_except_addon (s : Settings) (e : StripeEvent)
    (p : Profile)
    (h : ∀ event_id, e ≠ StripeEvent.checkout_addon event_id) :
    handle_stripe_event s e (handle_stripe_event s e p) =
      handle_stripe_event s e p := by
  cases e with
  | checkout_subscription a b c d => rfl
  | checkout_addon a => exact absurd rfl (h a)
  | invoice_paid a ok pe => cases ok <;> rfl
  | subscription_updated a st pe => rfl
  | subscription_deleted a => rfl

/-- Claim C2 amended witness: a duplicated invoice-paid renewal. -/
theorem C2_idempotent_except_addon_witness :
    handle_stripe_event defaultSettings
        (StripeEvent.invoice_paid "evt_2" true 200)
        (handle_stripe_event defaultSettings
          (StripeEvent.invoice_paid "evt_2" true 200) c2profile) =
      handle_stripe_event defaultSettings
        (StripeEvent.invoice_paid "evt_2" true 200) c2profile :=
  C2_idempotent_except_addon defaultSettings
    (StripeEvent.invoice_paid "evt_2" true 200) c2profile
    (fun _ hEq => StripeEvent.noConfusion hEq)

def c3profile : Profile :=
  { subscription_status := "active", subscription_id := some "sub_3"
    stripe_customer_id := some "cus_3", current_period_end := some 100
    period_request_count := 10, addon_credits := 0, request_count := 3 }

/-- Claim C3, code evaluated at the failing input: a
customer.subscription.updated event whose Stripe status is the retry
state `past_due` changes an `active` account's tier to `expired`, though
the repository's design document says only customer.subscription.deleted
may expire an account. -/
theorem C3_code_eval :
    c3profile.subscription_status = "active" ∧
    (handle_stripe_event defaultSettings
        (StripeEvent.subscription_updated "evt_3" "past_due" 200)
        c3profile).subscription_status = "expired" ∧
    (handle_stripe_event defaultSettings
        (StripeEvent.subscription_deleted "evt_3d")
        c3profile).subscription_status = "expired" := by
  exact ⟨rfl, rfl, rfl⟩

def c4profile : Profile :=
  { subscription_status := "active", subscription_id := some "sub_4"
    stripe_customer_id := some "cus_4", current_period_end := some 100
    period_request_count := 7, addon_credits := 2, request_count := 1 }

/-- Claim C4 counterexample: when the profile update raises, the webhook
responds with HTTP 200 — a 2xx status — so the payment processor's retry
mechanism does not fire, contrary to the claimed non-2xx signal. -/
theorem C4_counterexample :
    200 ≤ (handle_stripe_webhook defaultSettings true
        (StripeEvent.subscription_deleted "evt_4") c4profile).1.http_status ∧
    (handle_stripe_webhook defaultSettings true
        (StripeEvent.subscription_deleted "evt_4") c4profile).1.http_status
      < 300 := by
  decide

/-- Claim C4 as amended: when applying a payment event fails (the profile
update raises), the webhook deliberately returns HTTP 200 with an error
body — the processor's retry mechanism does not fire — and the account
counters are left with no partial update (the profile is returned
exactly as it was). -/
theorem C4_failure_returns_200_unchanged (s : Settings) (e : StripeEvent)
    (p : Profile) :
    (handle_stripe_webhook s true e p).1 =
      { http_status := 200, body_status := "error" } ∧
    (handle_stripe_webhook s true e p).2 = p :=
  ⟨rfl, rfl⟩

/-- Claim C4 amended witness. -/
theorem C4_failure_returns_200_unchanged_witness :
    (handle_stripe_webhook defaultSettings true
        (StripeEvent.checkout_addon "evt_5") c4profile).1 =
      { http_status := 200, body_status := "error" } ∧
    (handle_stripe_webhook defaultSettings true
        (StripeEvent.checkout_addon "evt_5") c4profile).2 = c4profile :=
  C4_failure_returns_200_unchanged defaultSettings
    (StripeEvent.checkout_addon "evt_5") c4profile

def c8profile : Profile :=
  { subscription_status := "active", subscription_id := some "sub_8"
    stripe_customer_id := some "cus_8", current_period_end := some 100
    period_request_count := 49, addon_credits := 0, request_count := 0 }

/-- Claim C8, code evaluated at the failing input: an `active` account
with exactly one unit of combined remaining quota (period usage 49 of
50, no add-on credits); in the interleaving where both callers read the
profile before either write lands — possible because `consume_request`
computes the update from the read snapshot and `update_profile` writes
absolute values, an application-level read-then-write with no
conditional update — both debits report success, and the final profile
records only one consumed unit. -/
theorem C8_code_eval :
    (raceBothReadFirst defaultSettings "a@b.c" c8profile).1 = true ∧
    (raceBothReadFirst defaultSettings "a@b.c" c8profile).2.1 = true ∧
    (raceBothReadFirst defaultSettings "a@b.c" c8profile).2.2 =
      { c8profile with period_request_count := 50 } := by
  decide
